import Mathlib

/-!
Verification of cvloop (shoeffner/cvloop) against its specification.

Shallow embedding of the core behaviors of `src/cvloop/cvloop.py` and
`src/cvloop/functions.py`: the playback controller state machine, the
grayscale policy, the annotation scheduler, the overlay (hat) compositor,
and two example transform functions.  Machine pixel values are modelled as
rationals (numpy computes the blends in floating point; the formulas are
exact in the source), coordinates as integers, frame buffers as total
functions from coordinates to values.
-/

namespace Cvloop

/-! ## Playback controller (cvloop.py)

`cvloop` is a matplotlib `TimedAnimation`.  Its observable control state is
the animation timer (`self.event_source._timer`: `None` when stopped) plus
the remaining frames of the capture source.  We additionally count calls to
`self.capture.release()` (the call is attempted and an `AttributeError` is
swallowed, so we count attempts) and rendered frames, and record whether the
"Finished." status has been shown.  `externallySupplied` records whether the
caller passed a pre-opened source (a `VideoCapture` or an object with a
`read` attribute); nothing in the event handlers consults it. -/

structure LoopState where
  timerRunning : Bool
  frames : List Nat
  releaseCalls : Nat
  rendered : Nat
  finishedShown : Bool
  externallySupplied : Bool
  deriving DecidableEq, Repr

/-- Initial state after `__init__`: `TimedAnimation.__init__` starts the
animation, so the timer runs; nothing released or rendered yet. -/
def initState (externallySupplied : Bool) (frames : List Nat) : LoopState :=
  { timerRunning := true
    frames := frames
    releaseCalls := 0
    rendered := 0
    finishedShown := false
    externallySupplied := externallySupplied }

/-- `cvloop.evt_toggle_pause` (cvloop.py lines 171-176): the single handler
for the `pause_event`; if `self.event_source._timer is None` (timer stopped)
it starts the timer, otherwise it stops it — a toggle. -/
def evt_toggle_pause (s : LoopState) : LoopState :=
  if s.timerRunning then { s with timerRunning := false }
  else { s with timerRunning := true }

/-- `cvloop.evt_release` (cvloop.py lines 164-169): the `close_event`
handler; tries `self.capture.release()` unconditionally, swallowing
`AttributeError`. -/
def evt_release (s : LoopState) : LoopState :=
  { s with releaseCalls := s.releaseCalls + 1 }

/-- One timer tick: `TimedAnimation` calls `cvloop._draw_frame` (lines
370-409), which calls `cvloop.read_frame` (lines 291-312).  If the timer is
stopped no tick is delivered.  When `self.capture.read()` returns `ret =
False`, `read_frame` stops the event source, tries `self.capture.release()`
(swallowing `AttributeError`) and returns `None`; `_draw_frame` then shows
the `Finished.` status.  Otherwise the frame is consumed and rendered. -/
def tick (s : LoopState) : LoopState :=
  if s.timerRunning then
    match s.frames with
    | [] =>
        { s with timerRunning := false
                 releaseCalls := s.releaseCalls + 1
                 finishedShown := true }
    | _ :: rest =>
        { s with frames := rest, rendered := s.rendered + 1 }
  else s

/-- The spec's abstract `PlaybackState` enum. -/
inductive PlaybackState where
  | Playing
  | Paused
  | Finished
  deriving DecidableEq, Repr

/-- Abstraction from the concrete controller state to the spec's
`PlaybackState`: once the `Finished.` status has been shown the run is
`Finished`; otherwise the state is `Playing` iff the timer runs. -/
def playbackState (s : LoopState) : PlaybackState :=
  if s.finishedShown then .Finished
  else if s.timerRunning then .Playing
  else .Paused

/-- Iterated ticks of the animation timer. -/
def runTicks (s : LoopState) : Nat → LoopState
  | 0 => s
  | n + 1 => runTicks (tick s) n

/-! ## Grayscale policy (cvloop.py lines 411-436)

The spec's Frame is a 2D or 3D pixel buffer; we model both shapes. -/

/-- A frame: a 2D buffer, or a 3D buffer with a channel dimension. -/
inductive Frame where
  | plane (h w : Nat) (data : Nat → Nat → ℚ)
  | volume (h w c : Nat) (data : Nat → Nat → Nat → ℚ)

/-- `cvloop.is_color_image` (lines 411-420): at least three dimensions and
at least three channels in the third dimension. -/
def is_color_image : Frame → Bool
  | .plane _ _ _ => false
  | .volume _ _ c _ => 3 ≤ c

/-- `cvloop.to_gray` (lines 422-436): non-color frames are returned
unchanged; a color frame becomes `np.dot(frame[..., :3], [.299, .587,
.114])`, a 2D buffer of weighted channel sums.  (The `plane` arm of the
inner match is unreachable since a `plane` is never a color image.) -/
def to_gray (f : Frame) : Frame :=
  if is_color_image f then
    match f with
    | .plane h w d => .plane h w d
    | .volume h w _ d =>
        .plane h w (fun i j =>
          (299 : ℚ) / 1000 * d i j 0 + 587 / 1000 * d i j 1
            + 114 / 1000 * d i j 2)
  else f

/-! ## Constructor source handling (cvloop.py lines 100-109) -/

/-- The kinds of values a caller can pass as `source`. -/
inductive PySource where
  | noneSource
  | videoCapture
  | readAttrObject
  | deviceId (n : Int)
  | filePath (s : String)
  deriving DecidableEq, Repr

/-- Whether `isinstance(source, type(cv2.VideoCapture()))` holds. -/
def isVideoCaptureInstance : PySource → Bool
  | .videoCapture => true
  | _ => false

/-- Whether `hasattr(source, 'read')` holds (a `VideoCapture` also has
`read`, but the `isinstance` test short-circuits first; device ids and
path strings have no `read`, and `None` has none either). -/
def hasReadAttr : PySource → Bool
  | .videoCapture => true
  | .readAttrObject => true
  | _ => false

/-- Observable side effects of `__init__`'s source handling. -/
inductive InitEffect where
  | openFile (name mode : String)
  | openVideoCapture
  | useSuppliedCapture
  deriving DecidableEq, Repr

/-- `cvloop.__init__` source handling (lines 100-109): with `source is None`
a default `cv2.VideoCapture(0)` is opened; a `VideoCapture` instance or an
object with a `read` attribute is used directly; any other value is first
printed into `open('test.txt', 'w')` and then passed to
`cv2.VideoCapture`. -/
def initEffects (s : PySource) : List InitEffect :=
  match s with
  | .noneSource => [.openVideoCapture]
  | .videoCapture => [.useSuppliedCapture]
  | .readAttrObject => [.useSuppliedCapture]
  | .deviceId _ => [.openFile "test.txt" "w", .openVideoCapture]
  | .filePath _ => [.openFile "test.txt" "w", .openVideoCapture]

/-! ## Frame processing argument (cvloop.py lines 382-397)

In `__init__`, `axes_original` is created iff `side_by_side` (lines
136-141), and `__prepare_axes` returns `None` iff its axes argument is
`None` (lines 248-249), so `self.original is not None` holds iff
`side_by_side` was configured.  `_draw_frame` passes
`original.copy()` to `process_frame` when `self.original is not None`
(line 389) and `original` itself otherwise (line 397). -/

/-- Which buffer reaches the user function. -/
inductive TransformInput where
  | copyOfFrame
  | frameItself
  deriving DecidableEq, Repr

/-- The argument `cvloop._draw_frame` hands to `cvloop.process_frame`
(and hence to the user function), as a function of the side-by-side
configuration. -/
def transformInput (sideBySide : Bool) : TransformInput :=
  if sideBySide then .copyOfFrame else .frameItself

/-! ## Inverter (functions.py lines 117-131) -/

/-- The `Inverter` object: its only field. -/
structure Inverter where
  high : Int
  deriving DecidableEq, Repr

/-- `Inverter.__init__` (lines 120-127): the parameter `high` is accepted
but the body assigns the literal `self.high = 255`. -/
def Inverter.init (_high : Int) : Inverter :=
  { high := 255 }

/-- `Inverter.__call__` (lines 129-131): returns `255 - image`
(elementwise, with the literal 255, not `self.high`). -/
def Inverter.call (_inv : Inverter) (image : Nat → Nat → Int) :
    Nat → Nat → Int :=
  fun i j => 255 - image i j

/-! ## DrawHat overlay compositor (functions.py lines 192-237) -/

/-- Python's `int()` applied to a real value: truncation toward zero. -/
def pyInt (q : ℚ) : Int :=
  if 0 ≤ q then ⌊q⌋ else ⌈q⌉

/-- `hat_width = int(w * self.w_offset)` (functions.py line 202). -/
def hat_width (w : Int) (wOffset : ℚ) : Int :=
  pyInt (w * wOffset)

/-- `hat_height = int(hat_width * hat.shape[0] / hat.shape[1])`
(functions.py line 203), where `hat.shape[0]`/`hat.shape[1]` are the
template's height and width. -/
def hat_height (hatWidth : Int) (templH templW : Nat) : Int :=
  pyInt ((hatWidth : ℚ) * templH / templW)

/-- Modelled from the spec (refinement reference, not from the source):
target overlay width = `round(w * widthScale)`, rounding to the nearest
integer. -/
def specHatWidth (w : Int) (wOffset : ℚ) : Int :=
  ⌊w * wOffset + 1 / 2⌋

/-- The clip state computed in `DrawHat.__call__` (functions.py lines
206-226): destination rectangle `[y0, y1) × [x0, x1)` in the frame and the
corresponding source region `[hatTop, hatBottom) × [hatLeft, hatRight)` in
the resized hat. -/
structure HatClip where
  hatTop : Int
  hatBottom : Int
  hatLeft : Int
  hatRight : Int
  y0 : Int
  y1 : Int
  x0 : Int
  x1 : Int
  deriving DecidableEq, Repr

/-- `DrawHat.__call__` clipping (functions.py lines 206-226), line by line:
initialize the hat region to the whole hat; `y0 = y - hat_height +
self.y_offset`; if `y0 < 0` set `hat_top = abs(y0)` and `y0 = 0`;
`y1 = y0 + hat_height - hat_top`; if `y1 > frame_height` set
`hat_bottom = hat_height - (y1 - frame_height)` and `y1 = frame_height`;
symmetrically for `x0 = x + self.x_offset`, `x1`, `hat_left`,
`hat_right` against the frame width. -/
def clipHat (x y hatWidth hatHeight frameWidth frameHeight xOff yOff :
    Int) : HatClip :=
  let hatLeft : Int := 0
  let hatTop : Int := 0
  let hatBottom : Int := hatHeight
  let hatRight : Int := hatWidth
  let y0 := y - hatHeight + yOff
  let p1 := if y0 < 0 then (|y0|, (0 : Int)) else (hatTop, y0)
  let hatTop := p1.1
  let y0 := p1.2
  let y1 := y0 + hatHeight - hatTop
  let p2 := if y1 > frameHeight then
      (hatHeight - (y1 - frameHeight), frameHeight) else (hatBottom, y1)
  let hatBottom := p2.1
  let y1 := p2.2
  let x0 := x + xOff
  let p3 := if x0 < 0 then (|x0|, (0 : Int)) else (hatLeft, x0)
  let hatLeft := p3.1
  let x0 := p3.2
  let x1 := x0 + hatWidth - hatLeft
  let p4 := if x1 > frameWidth then
      (hatWidth - (x1 - frameWidth), frameWidth) else (hatRight, x1)
  let hatRight := p4.1
  let x1 := p4.2
  ⟨hatTop, hatBottom, hatLeft, hatRight, y0, y1, x0, x1⟩

/-- A pixel buffer indexed by row, column and channel; channel 3 of the
hat image is its alpha channel. -/
def Image : Type := Int → Int → Nat → ℚ

/-- The blending loop of `DrawHat.__call__` (functions.py lines 228-235):
for each channel `c` in `range(0, 3)`,
`image[y0:y1, x0:x1, c] = hat_slice + bg_slice` with
`hat_slice = hat[hat_top:hat_bottom, hat_left:hat_right, c] *
(hat[hat_top:hat_bottom, hat_left:hat_right, 3] / 255.0)` and
`bg_slice = image[y0:y1, x0:x1, c] * (1.0 - hat[...] / 255.0)`.
The slice assignment writes the destination pixel at offset `(r, s)`
inside `[y0, y1) × [x0, x1)` from the hat pixel at
`(hat_top + r, hat_left + s)`; every pixel outside the destination
rectangle, and every channel other than 0, 1, 2 (in particular any alpha
channel of the destination), is left untouched.  The channel assignments
are independent because each writes a distinct channel. -/
def compositeHat (img hat : Image) (hc : HatClip) : Image :=
  fun i j c =>
    if c < 3 ∧ hc.y0 ≤ i ∧ i < hc.y1 ∧ hc.x0 ≤ j ∧ j < hc.x1 then
      hat (hc.hatTop + (i - hc.y0)) (hc.hatLeft + (j - hc.x0)) c *
        (hat (hc.hatTop + (i - hc.y0)) (hc.hatLeft + (j - hc.x0)) 3 / 255)
      + img i j c *
        (1 - hat (hc.hatTop + (i - hc.y0)) (hc.hatLeft + (j - hc.x0)) 3
          / 255)
    else img i j c

/-! ## Annotation scheduler (cvloop.py lines 325-368) -/

/-- The two shape tags of the data model, `'RECT'` and `'CIRC'`. -/
inductive Shape where
  | RECT
  | CIRC
  deriving DecidableEq, Repr

/-- An annotation color: an RGB tuple, a gray scalar, or an html hex
string.  Tuples and strings have `__len__`; a scalar does not. -/
inductive Color where
  | triple (r g b : Int)
  | scalar (v : Int)
  | html (s : String)
  deriving DecidableEq, Repr

/-- `hasattr(color, '__len__')`. -/
def Color.hasLen : Color → Bool
  | .scalar _ => false
  | _ => true

/-- An annotation size: `(width, height)` for rectangles or a scalar
radius for circles. -/
inductive Size where
  | pair (w h : Int)
  | scalar (r : Int)
  deriving DecidableEq, Repr

/-- `hasattr(size, '__len__')`. -/
def Size.hasLen : Size → Bool
  | .pair _ _ => true
  | .scalar _ => false

/-- The optional fourth element of an annotation: a dict that may carry
any of the keys `shape`, `color`, `size`, `line`. -/
structure AnnOptions where
  shape : Option Shape
  color : Option Color
  size : Option Size
  line : Option Int
  deriving DecidableEq, Repr

/-- One annotation `[x, y, frame, options]`; `options` is absent when the
list has only three elements. -/
structure Annotation where
  x : Int
  y : Int
  frame : Int
  options : Option AnnOptions
  deriving DecidableEq, Repr

/-- The default format (`annotations_default`). -/
structure AnnDefaults where
  shape : Shape
  color : Color
  line : Int
  size : Size
  deriving DecidableEq, Repr

/-- The constructor's default `annotations_default` (cvloop.py lines
34-37): `{'shape': 'RECT', 'color': '#228B22', 'line': 2,
'size': (20, 20)}`. -/
def annotations_default : AnnDefaults :=
  { shape := .RECT, color := .html "#228B22", line := 2,
    size := .pair 20 20 }

/-- The drawable descriptor assembled for one matching annotation. -/
structure Drawable where
  x : Int
  y : Int
  shape : Shape
  color : Color
  size : Size
  line : Int
  deriving DecidableEq, Repr

/-- The per-annotation merge in `cvloop.annotate` (cvloop.py lines
338-357): start from the defaults, override each of `shape`, `color`,
`size`, `line` independently when the options dict carries the key; if the
shape is `'CIRC'` and the size has `__len__`, replace the size with the
fixed radius 30; if the color has no `__len__` (a scalar), broadcast it to
a 3-tuple `(color,) * 3`. -/
def mergeAnnotation (a : Annotation) (d : AnnDefaults) : Drawable :=
  let shape := (a.options.bind (·.shape)).getD d.shape
  let color := (a.options.bind (·.color)).getD d.color
  let size := (a.options.bind (·.size)).getD d.size
  let line := (a.options.bind (·.line)).getD d.line
  let size := if shape = .CIRC ∧ size.hasLen then Size.scalar 30 else size
  let color :=
    if color.hasLen then color
    else match color with
      | .scalar v => Color.triple v v v
      | c => c
  { x := a.x, y := a.y, shape := shape, color := color, size := size,
    line := line }

/-- The scan loop of `cvloop.annotate` (cvloop.py lines 335-368): walk the
annotation list from the start; `if annotation[2] > frame_no: return`
(early exit); `if annotation[2] == frame_no:` merge and append an artist;
otherwise continue. -/
def annotateScan (d : AnnDefaults) (frameNo : Int) :
    List Annotation → List Drawable
  | [] => []
  | a :: rest =>
    if frameNo < a.frame then []
    else if a.frame = frameNo then
      mergeAnnotation a d :: annotateScan d frameNo rest
    else annotateScan d frameNo rest

/-- `cvloop.annotate` (cvloop.py lines 325-368): first every previously
added artist is removed and the artist list reset (lines 332-334), then
the scan rebuilds the artist list from scratch; the result is therefore a
function of the annotation list and frame number alone, independent of the
previously drawn artifacts. -/
def annotate (_oldArtists : List Drawable) (anns : List Annotation)
    (frameNo : Int) (d : AnnDefaults) : List Drawable :=
  annotateScan d frameNo anns

/-! ## Concrete test fixtures -/

/-- A constant test frame: every pixel and channel holds 10. -/
def testImage : Image := fun _ _ _ => 10

/-- A test hat template: color channels 100, alpha channel 51. -/
def testHat : Image := fun _ _ c => if c = 3 then 51 else 100

/-- A 2×2 destination rectangle at the frame origin with an unclipped
2×2 hat region. -/
def testClip : HatClip := ⟨0, 2, 0, 2, 0, 2, 0, 2⟩

/-- A 2×2 grayscale (2D) test frame of zeros. -/
def testPlane : Frame := .plane 2 2 (fun _ _ => 0)

/-- The spec's example annotation sequence: frame indices 3, 5, 5. -/
def testAnns : List Annotation :=
  [{ x := 10, y := 10, frame := 3, options := none },
   { x := 20, y := 20, frame := 5, options := none },
   { x := 30, y := 30, frame := 5,
     options := some { shape := some .CIRC, color := some (.scalar 128),
                       size := some (.pair 4 4), line := none } }]

/-! ## Theorems -/

/-- C1 (counterexample): in the initial (reachable) state, which is
`Playing`, delivering the pause event twice does not leave the state
`Paused` — the handler is a toggle, so the second pause resumes. -/
theorem C1_pause_not_idempotent :
    ¬ playbackState (evt_toggle_pause (evt_toggle_pause
        (initState true [0]))) = PlaybackState.Paused := by
  decide

/-- C1 (amended): the pause/resume control is a single toggle handler —
delivering it twice in a row restores the exact previous controller state
(so `pause → pause` from `Playing` leaves `Playing`, a single pause leaves
`Paused`, and a resume delivered while `Playing` pauses instead of being a
no-op); once the `Finished.` status has been shown, the abstract state
stays `Finished` under pause/resume, tick and close events. -/
theorem C1_toggle_and_finished (s : LoopState) :
    evt_toggle_pause (evt_toggle_pause s) = s ∧
    (playbackState s = PlaybackState.Playing →
      playbackState (evt_toggle_pause s) = PlaybackState.Paused) ∧
    (s.finishedShown = true →
      playbackState (evt_toggle_pause s) = PlaybackState.Finished ∧
      playbackState (tick s) = PlaybackState.Finished ∧
      playbackState (evt_release s) = PlaybackState.Finished) := by
  obtain ⟨t, fr, rc, rd, fin, ext⟩ := s
  refine ⟨?_, ?_, ?_⟩
  · cases t <;> simp [evt_toggle_pause]
  · cases t <;> cases fin <;>
      simp [evt_toggle_pause, playbackState]
  · intro hfin
    subst hfin
    refine ⟨?_, ?_, ?_⟩
    · cases t <;> simp [evt_toggle_pause, playbackState]
    · cases t <;> cases fr <;> simp [tick, playbackState]
    · simp [evt_release, playbackState]

/-- C1 (witness for the amended theorem at concrete states). -/
theorem C1_toggle_and_finished_witness :
    playbackState (evt_toggle_pause (initState true [0])) =
      PlaybackState.Paused ∧
    playbackState (tick (tick (initState true []))) =
      PlaybackState.Finished :=
  ⟨(C1_toggle_and_finished (initState true [0])).2.1 (by decide),
   ((C1_toggle_and_finished (tick (initState true []))).2.2
      (by decide)).2.1⟩

/-- C2 (code bug evaluation): an externally supplied, pre-opened source
(`externallySupplied = true`) yielding 3 frames then exhaustion: after 4
ticks exactly 3 frames were rendered, the `Finished.` status is shown, and
`release` was invoked once on the caller's source — the constructor's own
docstring says such a capture object "will not be released by this
function", but `read_frame` calls `self.capture.release()`
unconditionally. -/
theorem C2_release_called_on_supplied_source :
    (runTicks (initState true [1, 2, 3]) 4).releaseCalls = 1 ∧
    (runTicks (initState true [1, 2, 3]) 4).rendered = 3 ∧
    (runTicks (initState true [1, 2, 3]) 4).finishedShown = true ∧
    (initState true [1, 2, 3]).externallySupplied = true := by
  decide

/-- C3 (counterexample): without side-by-side display the user transform
does not receive a copy — `_draw_frame` passes the acquired frame itself
to `process_frame`. -/
theorem C3_no_copy_without_side_by_side :
    ¬ transformInput false = TransformInput.copyOfFrame := by
  decide

/-- C3 (amended): the transform is invoked on a copy of the acquired
frame exactly when side-by-side display is configured (only then does a
displayed original exist); without side-by-side it receives the acquired
frame itself. -/
theorem C3_copy_iff_side_by_side :
    transformInput true = TransformInput.copyOfFrame ∧
    transformInput false = TransformInput.frameItself := by
  decide

/-- C8: grayscale conversion is idempotent, and a frame that is already
grayscale (fewer than 3 dimensions, or fewer than 3 channels) is returned
unchanged. -/
theorem C8_to_gray_idempotent (f : Frame) :
    to_gray (to_gray f) = to_gray f ∧
    (is_color_image f = false → to_gray f = f) := by
  constructor
  · cases f with
    | plane h w d => simp [to_gray, is_color_image]
    | volume h w c d =>
        by_cases hc : 3 ≤ c <;>
          simp [to_gray, is_color_image, hc]
  · intro hng
    simp [to_gray, hng]

/-- C8 (witness): a 2D frame passes through `to_gray` unchanged. -/
theorem C8_to_gray_idempotent_witness :
    to_gray testPlane = testPlane :=
  (C8_to_gray_idempotent testPlane).2 rfl

/-- C9 (counterexample): `source = None` is neither a `VideoCapture`
instance nor an object with a `read` attribute, yet constructing the loop
with it does not write `test.txt` — the write is guarded by
`if source is not None`. -/
theorem C9_none_source_writes_nothing :
    isVideoCaptureInstance PySource.noneSource = false ∧
    hasReadAttr PySource.noneSource = false ∧
    InitEffect.openFile "test.txt" "w" ∉
      initEffects PySource.noneSource := by
  decide

/-- C9 (amended): for every non-`None` source argument that is neither a
`VideoCapture` instance nor an object with a `read` attribute (an integer
device id or a filename string), construction opens `test.txt` in mode
`'w'` (overwriting any existing file of that name) and prints the source
value into it before opening the capture. -/
theorem C9_other_sources_write_test_txt (s : PySource)
    (hn : s ≠ PySource.noneSource)
    (h1 : isVideoCaptureInstance s = false)
    (h2 : hasReadAttr s = false) :
    initEffects s = [InitEffect.openFile "test.txt" "w",
                     InitEffect.openVideoCapture] := by
  cases s <;> simp_all [initEffects, isVideoCaptureInstance, hasReadAttr]

/-- C9 (witness): device id 0 triggers the `test.txt` write before the
capture is opened. -/
theorem C9_other_sources_write_test_txt_witness :
    initEffects (PySource.deviceId 0) =
      [InitEffect.openFile "test.txt" "w",
       InitEffect.openVideoCapture] :=
  C9_other_sources_write_test_txt (PySource.deviceId 0)
    (by decide) rfl rfl

/-- C10: for every constructor argument `high` and every image,
`Inverter(high)(image)` is `255 - image` elementwise — the argument is
ignored, the stored field is the literal 255, and the call uses the
literal 255. -/
theorem C10_inverter_ignores_high (high : Int)
    (image : Nat → Nat → Int) (i j : Nat) :
    Inverter.call (Inverter.init high) image i j = 255 - image i j ∧
    (Inverter.init high).high = 255 :=
  ⟨rfl, rfl⟩

/-- C4 (counterexample): for the box width 3 and the default width scale
1.3, `int(3 * 1.3)` truncates to 3 but rounding to the nearest integer
gives 4 — the compositor does not round to nearest. -/
theorem C4_width_not_rounded :
    hat_width 3 (13 / 10) ≠ specHatWidth 3 (13 / 10) := by
  have h0 : ((3 : Int) : ℚ) * (13 / 10) = 39 / 10 := by norm_num
  have h1 : hat_width 3 (13 / 10) = 3 := by
    unfold hat_width pyInt
    rw [h0, if_pos (by norm_num), Int.floor_eq_iff]
    norm_num
  have h2 : specHatWidth 3 (13 / 10) = 4 := by
    unfold specHatWidth
    rw [h0, Int.floor_eq_iff]
    norm_num
  omega

/-- C4 (amended): the target overlay width is `int(w * widthScale)`,
which truncates toward zero — the floor of the exact product when the
product is nonnegative, hence within 1 below it — and the target height
is `int(width * templateHeight / templateWidth)`, the floor of the exact
aspect-ratio-preserving height. -/
theorem C4_width_truncates (w : Int) (wOffset : ℚ) (templH templW : Nat)
    (hw : 0 ≤ (w : ℚ) * wOffset) (htw : 0 < templW) :
    hat_width w wOffset = ⌊(w : ℚ) * wOffset⌋ ∧
    (w : ℚ) * wOffset - 1 < (hat_width w wOffset : ℚ) ∧
    (hat_width w wOffset : ℚ) ≤ (w : ℚ) * wOffset ∧
    hat_height (hat_width w wOffset) templH templW =
      ⌊(hat_width w wOffset : ℚ) * templH / templW⌋ := by
  have h1 : hat_width w wOffset = ⌊(w : ℚ) * wOffset⌋ := by
    simp [hat_width, pyInt, hw]
  refine ⟨h1, ?_, ?_, ?_⟩
  · rw [h1]
    exact_mod_cast Int.sub_one_lt_floor ((w : ℚ) * wOffset)
  · rw [h1]
    exact_mod_cast Int.floor_le ((w : ℚ) * wOffset)
  · have hx : (0 : ℚ) ≤ (hat_width w wOffset : ℚ) := by
      rw [h1]
      exact_mod_cast Int.floor_nonneg.mpr hw
    have hq : 0 ≤ (hat_width w wOffset : ℚ) * templH / templW :=
      div_nonneg (mul_nonneg hx (by positivity)) (by positivity)
    simp [hat_height, pyInt, hq]

/-- C4 (witness for the amended theorem at w = 3, widthScale = 1.3,
template 2×4). -/
theorem C4_width_truncates_witness :
    hat_width 3 (13 / 10) = ⌊((3 : Int) : ℚ) * (13 / 10)⌋ ∧
    ((3 : Int) : ℚ) * (13 / 10) - 1 < (hat_width 3 (13 / 10) : ℚ) ∧
    (hat_width 3 (13 / 10) : ℚ) ≤ ((3 : Int) : ℚ) * (13 / 10) ∧
    hat_height (hat_width 3 (13 / 10)) 2 4 =
      ⌊(hat_width 3 (13 / 10) : ℚ) * (2 : Nat) / (4 : Nat)⌋ :=
  C4_width_truncates 3 (13 / 10) 2 4 (by norm_num) (by decide)

/-- C5: every pixel of the clipped destination rectangle gets, on each of
the three color channels, the alpha blend
`overlaySlice * (alpha / 255) + dst * (1 - alpha / 255)` (the overlay
pixel taken at the source offset `(hatTop + row, hatLeft + col)`), and no
channel beyond the first three — in particular any alpha channel of the
destination — is ever written. -/
theorem C5_alpha_blend (img hat : Image) (hc : HatClip) (i j : Int)
    (c : Nat) :
    (hc.y0 ≤ i → i < hc.y1 → hc.x0 ≤ j → j < hc.x1 → c < 3 →
      compositeHat img hat hc i j c =
        hat (hc.hatTop + (i - hc.y0)) (hc.hatLeft + (j - hc.x0)) c *
          (hat (hc.hatTop + (i - hc.y0)) (hc.hatLeft + (j - hc.x0)) 3
            / 255) +
        img i j c *
          (1 - hat (hc.hatTop + (i - hc.y0)) (hc.hatLeft + (j - hc.x0)) 3
            / 255)) ∧
    (3 ≤ c → compositeHat img hat hc i j c = img i j c) := by
  constructor
  · intro h1 h2 h3 h4 h5
    simp [compositeHat, h1, h2, h3, h4, h5]
  · intro h5
    have hnc : ¬ c < 3 := by omega
    simp [compositeHat, hnc]

/-- C5 (witness): one in-rectangle pixel on a color channel, and the same
pixel on the alpha channel. -/
theorem C5_alpha_blend_witness :
    compositeHat testImage testHat testClip 0 0 0 =
      testHat (testClip.hatTop + (0 - testClip.y0))
          (testClip.hatLeft + (0 - testClip.x0)) 0 *
        (testHat (testClip.hatTop + (0 - testClip.y0))
          (testClip.hatLeft + (0 - testClip.x0)) 3 / 255) +
      testImage 0 0 0 *
        (1 - testHat (testClip.hatTop + (0 - testClip.y0))
          (testClip.hatLeft + (0 - testClip.x0)) 3 / 255) ∧
    compositeHat testImage testHat testClip 0 0 3 = testImage 0 0 3 :=
  ⟨(C5_alpha_blend testImage testHat testClip 0 0 0).1
      (by decide) (by decide) (by decide) (by decide) (by decide),
   (C5_alpha_blend testImage testHat testClip 0 0 3).2 (by decide)⟩

/-- C6: when the computed destination extends above the frame by `k` rows
(`y - hatH + yOff = -k < 0`) and the bottom fits, the destination starts
at row 0 and spans exactly `hatH - k` rows, taken from the overlay with
its top `k` rows cropped (`hatTop = k`, `hatBottom = hatH`); bottom, left
and right clipping behave symmetrically. -/
theorem C6_boundary_clipping (x y hatW hatH frameW frameH xOff yOff :
    Int) :
    (y - hatH + yOff < 0 → hatH + (y - hatH + yOff) ≤ frameH →
      (clipHat x y hatW hatH frameW frameH xOff yOff).y0 = 0 ∧
      (clipHat x y hatW hatH frameW frameH xOff yOff).hatTop =
        -(y - hatH + yOff) ∧
      (clipHat x y hatW hatH frameW frameH xOff yOff).y1 =
        hatH + (y - hatH + yOff) ∧
      (clipHat x y hatW hatH frameW frameH xOff yOff).hatBottom = hatH ∧
      (clipHat x y hatW hatH frameW frameH xOff yOff).y1 -
          (clipHat x y hatW hatH frameW frameH xOff yOff).y0 =
        hatH - (clipHat x y hatW hatH frameW frameH xOff yOff).hatTop) ∧
    (0 ≤ y - hatH + yOff → frameH < y + yOff →
      (clipHat x y hatW hatH frameW frameH xOff yOff).y1 = frameH ∧
      (clipHat x y hatW hatH frameW frameH xOff yOff).hatBottom =
        hatH - (y + yOff - frameH) ∧
      (clipHat x y hatW hatH frameW frameH xOff yOff).y0 =
        y - hatH + yOff ∧
      (clipHat x y hatW hatH frameW frameH xOff yOff).hatTop = 0 ∧
      (clipHat x y hatW hatH frameW frameH xOff yOff).hatBottom -
          (clipHat x y hatW hatH frameW frameH xOff yOff).hatTop =
        (clipHat x y hatW hatH frameW frameH xOff yOff).y1 -
          (clipHat x y hatW hatH frameW frameH xOff yOff).y0) ∧
    (x + xOff < 0 → hatW + (x + xOff) ≤ frameW →
      (clipHat x y hatW hatH frameW frameH xOff yOff).x0 = 0 ∧
      (clipHat x y hatW hatH frameW frameH xOff yOff).hatLeft =
        -(x + xOff) ∧
      (clipHat x y hatW hatH frameW frameH xOff yOff).x1 =
        hatW + (x + xOff) ∧
      (clipHat x y hatW hatH frameW frameH xOff yOff).hatRight = hatW ∧
      (clipHat x y hatW hatH frameW frameH xOff yOff).x1 -
          (clipHat x y hatW hatH frameW frameH xOff yOff).x0 =
        hatW - (clipHat x y hatW hatH frameW frameH xOff yOff).hatLeft) ∧
    (0 ≤ x + xOff → frameW < x + xOff + hatW →
      (clipHat x y hatW hatH frameW frameH xOff yOff).x1 = frameW ∧
      (clipHat x y hatW hatH frameW frameH xOff yOff).hatRight =
        hatW - (x + xOff + hatW - frameW) ∧
      (clipHat x y hatW hatH frameW frameH xOff yOff).x0 = x + xOff ∧
      (clipHat x y hatW hatH frameW frameH xOff yOff).hatLeft = 0 ∧
      (clipHat x y hatW hatH frameW frameH xOff yOff).hatRight -
          (clipHat x y hatW hatH frameW frameH xOff yOff).hatLeft =
        (clipHat x y hatW hatH frameW frameH xOff yOff).x1 -
          (clipHat x y hatW hatH frameW frameH xOff yOff).x0) := by
  refine ⟨?_, ?_, ?_, ?_⟩ <;> intro h1 h2 <;>
    simp only [clipHat] <;> split_ifs <;>
    simp_all [abs_of_neg] <;> omega

/-- C6 (witness): a hat extending 7 rows above the frame, and one
extending 3 columns left of the frame. -/
theorem C6_boundary_clipping_witness :
    ((clipHat 5 3 4 10 100 100 0 0).y0 = 0 ∧
     (clipHat 5 3 4 10 100 100 0 0).hatTop = -(3 - 10 + 0) ∧
     (clipHat 5 3 4 10 100 100 0 0).y1 = 10 + (3 - 10 + 0) ∧
     (clipHat 5 3 4 10 100 100 0 0).hatBottom = 10 ∧
     (clipHat 5 3 4 10 100 100 0 0).y1 -
         (clipHat 5 3 4 10 100 100 0 0).y0 =
       10 - (clipHat 5 3 4 10 100 100 0 0).hatTop) ∧
    ((clipHat 2 50 8 10 100 100 (-5) 0).x0 = 0 ∧
     (clipHat 2 50 8 10 100 100 (-5) 0).hatLeft = -(2 + -5) ∧
     (clipHat 2 50 8 10 100 100 (-5) 0).x1 = 8 + (2 + -5) ∧
     (clipHat 2 50 8 10 100 100 (-5) 0).hatRight = 8 ∧
     (clipHat 2 50 8 10 100 100 (-5) 0).x1 -
         (clipHat 2 50 8 10 100 100 (-5) 0).x0 =
       8 - (clipHat 2 50 8 10 100 100 (-5) 0).hatLeft) :=
  ⟨(C6_boundary_clipping 5 3 4 10 100 100 0 0).1 (by decide) (by decide),
   (C6_boundary_clipping 2 50 8 10 100 100 (-5) 0).2.2.1
     (by decide) (by decide)⟩

/-- C7: for every sorted annotation sequence, the scheduler's output is a
function of the annotations and frame number alone (previously emitted
artifacts are discarded first), and consists of exactly the merged
drawables of the annotations whose frame index equals the current index,
in order — so the early exit at the first greater index loses nothing,
and an annotation is drawn only on the exact frame it targets. -/
theorem C7_scheduler_exact (oldArtists : List Drawable)
    (anns : List Annotation) (frameNo : Int) (d : AnnDefaults)
    (hs : anns.Pairwise (fun a b => a.frame ≤ b.frame)) :
    annotate oldArtists anns frameNo d =
      (anns.filter (fun a => a.frame == frameNo)).map
        (fun a => mergeAnnotation a d) := by
  unfold annotate
  induction anns with
  | nil => rfl
  | cons a rest ih =>
    rcases List.pairwise_cons.1 hs with ⟨ha, hrest⟩
    by_cases h1 : frameNo < a.frame
    · have hall : ∀ b ∈ a :: rest, ¬ (b.frame == frameNo) = true := by
        intro b hb
        simp only [beq_iff_eq]
        rcases List.mem_cons.1 hb with hb | hb
        · subst hb
          omega
        · have := ha b hb
          omega
      rw [List.filter_eq_nil_iff.mpr hall]
      simp [annotateScan, h1]
    · by_cases h2 : a.frame = frameNo
      · simp [annotateScan, h1, h2, ih hrest]
      · have hne : ¬ (a.frame == frameNo) = true := by
          simp [beq_iff_eq, h2]
        simp [annotateScan, h1, h2, hne, ih hrest]

/-- C7 (witness): the spec's example sequence with frame indices
3, 5, 5 at the current index 5 emits exactly the two merged drawables
for the index-5 annotations. -/
theorem C7_scheduler_exact_witness :
    annotate [] testAnns 5 annotations_default =
      (testAnns.filter (fun a => a.frame == 5)).map
        (fun a => mergeAnnotation a annotations_default) :=
  C7_scheduler_exact [] testAnns 5 annotations_default (by decide)

end Cvloop
